import Mathlib

/-
Verification of the attachment/CRUD subsystem of the ananas-ai-education
Flask application (src/app.py) against its natural-language specification.

The embedding models each route handler as a pure function from the caller,
the parsed request, the database state and the attachment store (the set of
filenames present in UPLOAD_FOLDER) to the successor state and the response.
Filesystem writes can fail; each uploaded file part carries a `writeOk` flag
saying whether its `save` call succeeds (and the saved file exists afterwards).
`os.remove` on a missing key raises, which the embedding models explicitly.
Database adds/commits are assumed to succeed; on an uncaught exception the
session is rolled back, so the database state is returned unchanged.
-/

set_option maxHeartbeats 1000000

namespace Ananas

/-- A flash message, as produced by Flask's flash(message, category). -/
structure Flash where
  message : String
  category : String
deriving Repr, DecidableEq

/-- User row (app.py lines 28-38); only the fields the handlers read. -/
structure User where
  id : Nat
  username : String
  is_admin : Bool
deriving Repr, DecidableEq

/-- Student row (app.py lines 40-46). The two attachment columns are nullable. -/
structure Student where
  id : Nat
  name : String
  profile_picture : Option String
  resume : Option String
  description : String
  skills : String
deriving Repr, DecidableEq

/-- Material row (app.py lines 48-53). -/
structure Material where
  id : Nat
  title : String
  category : String
  filename : String
  description : String
deriving Repr, DecidableEq

/-- Gallery row (app.py lines 55-61); upload_date as an abstract tick. -/
structure Gallery where
  id : Nat
  title : String
  category : String
  filename : String
  description : String
  upload_date : Nat
deriving Repr, DecidableEq

/-- One serialized record of GET /api/search-materials (app.py lines 514-520):
the JSON object has exactly these five fields. -/
structure MaterialRecord where
  id : Nat
  title : String
  category : String
  description : String
  filename : String
deriving Repr, DecidableEq

/-- Database state: the three entity tables plus autoincrement counters. -/
structure Db where
  students : List Student
  materials : List Material
  galleries : List Gallery
  nextStudentId : Nat
  nextMaterialId : Nat
  nextGalleryId : Nat
deriving Repr, DecidableEq

/-- The attachment store: the filenames currently present in UPLOAD_FOLDER. -/
abbrev Store := List String

/-- The observable outcome of a request: a redirect (with the flashes queued
during the request), a rendered template (with flashes), a served file with a
mimetype ("" = framework default), a 404, an uncaught exception (HTTP 500), or
a JSON array. -/
inductive Resp where
  | redirect (endpoint : String) (flashes : List Flash)
  | render (template : String) (flashes : List Flash)
  | file (filename : String) (mimetype : String)
  | notFound
  | serverError
  | json (records : List MaterialRecord)
deriving Repr, DecidableEq

/-- A multipart file part. `writeOk` models whether the filesystem accepts the
write: `save` succeeding and the saved file existing afterwards. -/
structure FilePart where
  filename : String
  writeOk : Bool
deriving Repr, DecidableEq

/-- Truthiness of `request.files.get(...)`: None is falsy, and a werkzeug
FileStorage is falsy exactly when its filename is empty. -/
def hasFile : Option FilePart → Bool
  | none => false
  | some f => f.filename != ""

/- ------------------------------------------------------------------
String helpers, modelling the Python string operations on ASCII input.
------------------------------------------------------------------ -/

/-- Python str.strip(): drop leading and trailing whitespace. -/
def pyStrip (s : String) : String :=
  ⟨((s.data.dropWhile Char.isWhitespace).reverse.dropWhile Char.isWhitespace).reverse⟩

/-- ASCII lowercasing, as applied by Python str.lower() and by SQL lower()
(SQLite lowercases ASCII only). -/
def lowerChar (c : Char) : Char :=
  if 65 ≤ c.toNat ∧ c.toNat ≤ 90 then Char.ofNat (c.toNat + 32) else c

/-- Lowercase a whole string. -/
def lowerStr (s : String) : String :=
  ⟨s.data.map lowerChar⟩

/-- The characters kept by werkzeug's ascii strip regex [A-Za-z0-9_.-]. -/
def keepChar (c : Char) : Bool :=
  c.isAlphanum || c == '_' || c == '.' || c == '-'

/-- Python str.split() with no separator: split on runs of whitespace,
dropping empty words; `acc` is the current word reversed. -/
def wordsAux : List Char → List Char → List (List Char)
  | [], acc => if acc.isEmpty then [] else [acc.reverse]
  | c :: cs, acc =>
    if c.isWhitespace then
      if acc.isEmpty then wordsAux cs [] else acc.reverse :: wordsAux cs []
    else wordsAux cs (c :: acc)

/-- Python str.strip("._"): drop leading and trailing dots and underscores. -/
def stripDotUnderscore (l : List Char) : List Char :=
  ((l.dropWhile fun c => c == '.' || c == '_').reverse.dropWhile
    fun c => c == '.' || c == '_').reverse

/-- werkzeug.utils.secure_filename, restricted to ASCII input (where the NFKD
ascii-encode step is the identity) on a POSIX host (os.sep = "/", os.altsep =
None, and the Windows device-name branch is dead): path separators become
spaces, whitespace-separated words are joined with single underscores,
characters outside [A-Za-z0-9_.-] are dropped, and leading/trailing dots and
underscores are stripped. -/
def secure_filename (s : String) : String :=
  let replaced := s.data.map fun c => if c == '/' then ' ' else c
  let joined := List.intercalate ['_'] (wordsAux replaced [])
  ⟨stripDotUnderscore (joined.filter keepChar)⟩

/-- The characters after the last dot: filename.rsplit(".", 1)[1] when the
filename contains a dot. -/
def lastExt (filename : String) : String :=
  ⟨(filename.data.reverse.takeWhile fun c => !(c == '.')).reverse⟩

/-- allowed_file (app.py lines 154-155): the filename contains a dot and its
lowercased last extension is in the allow-list. -/
def allowed_file (filename : String) (allowed : List String) : Bool :=
  filename.data.contains '.' && allowed.contains (lowerStr (lastExt filename))

/- ------------------------------------------------------------------
Case-insensitive SQL LIKE (SQLAlchemy's ilike), with % and _ wildcards.
The string is the first argument so that both recursions are structural.
------------------------------------------------------------------ -/

/-- Can the pattern match the empty string? Exactly when it is all percents. -/
def likeMatchNil : List Char → Bool
  | [] => true
  | p :: pt => p == '%' && likeMatchNil pt

/-- One step of LIKE matching against a string c :: ct, where `onTail ps`
matches pattern ps against ct. Literal characters compare case-insensitively. -/
def likeMatchStep (c : Char) (onTail : List Char → Bool) : List Char → Bool
  | [] => false
  | p :: pt =>
    if p = '%' then likeMatchStep c onTail pt || onTail (p :: pt)
    else (decide (p = '_') || decide (lowerChar p = lowerChar c)) && onTail pt

/-- Case-insensitive LIKE: does pattern ps match the whole string cs? -/
def likeMatch (cs : List Char) (ps : List Char) : Bool :=
  match cs with
  | [] => likeMatchNil ps
  | c :: ct => likeMatchStep c (likeMatch ct) ps

/-- column.ilike(pattern). -/
def ilike (s pat : String) : Bool :=
  likeMatch s.data pat.data

/-- Material.title.ilike(f"%{q}%") (app.py lines 99-100 and 496). -/
def titleMatches (q : String) (m : Material) : Bool :=
  ilike m.title ("%" ++ q ++ "%")

/-- The search string contains no SQL LIKE wildcard. -/
def noWild (l : List Char) : Bool :=
  l.all fun c => !(c == '%') && !(c == '_')

/- ------------------------------------------------------------------
Repository helpers.
------------------------------------------------------------------ -/

/-- Student.query.get(id). -/
def findStudent (db : Db) (id : Nat) : Option Student :=
  db.students.find? fun s => s.id == id

/-- Material.query.get(id). -/
def findMaterial (db : Db) (id : Nat) : Option Material :=
  db.materials.find? fun m => m.id == id

/-- Gallery.query.get(id). -/
def findGallery (db : Db) (id : Nat) : Option Gallery :=
  db.galleries.find? fun g => g.id == id

/-- The serialization of one Material by /api/search-materials. -/
def serializeMaterial (m : Material) : MaterialRecord :=
  { id := m.id, title := m.title, category := m.category,
    description := m.description, filename := m.filename }

/-- paginate(page=p, per_page=n, error_out=False): the 1-indexed p-th slice of
n items; a page past the end is empty, never an error. -/
def paginate (page per : Nat) (l : List α) : List α :=
  (l.drop ((page - 1) * per)).take per

/-- The access-denied flash shared by all mutating handlers. -/
def accessDeniedFlash : Flash :=
  ⟨"Access denied. Admin privileges required.", "error"⟩

/- ------------------------------------------------------------------
Route handlers.
------------------------------------------------------------------ -/

/-- The form of POST /student/add; request.form.get(key, "") gives "" both for
a missing and an empty field, so plain strings suffice. -/
structure AddStudentForm where
  name : String
  description : String
  skills : String
  profile_picture : Option FilePart
  resume : Option FilePart
deriving Repr, DecidableEq

/-- POST /student/add (app.py lines 157-234), for an authenticated caller u.
The save-failure flashes carry the exception text in the source; the model
uses the fixed leading text. -/
def add_student (u : User) (form : AddStudentForm) (db : Db) (store : Store) :
    Db × Store × Resp :=
  if u.is_admin = false then
    (db, store, .redirect "students" [accessDeniedFlash])
  else
    let name := pyStrip form.name
    let description := pyStrip form.description
    let skills := pyStrip form.skills
    if name = "" then
      (db, store, .render "add_student" [⟨"Please provide the student name", "error"⟩])
    else
      -- Handle profile picture (lines 184-201)
      let picStep : Except Flash (Store × Option String) :=
        match form.profile_picture with
        | some f =>
          if f.filename ≠ "" then
            if allowed_file f.filename ["png", "jpg", "jpeg", "gif"] then
              if f.writeOk then
                let key := secure_filename ("profile_" ++ name ++ "_" ++ f.filename)
                .ok (key :: store, some key)
              else
                .error ⟨"Error uploading profile picture", "error"⟩
            else
              .error ⟨"Invalid image format. Please use PNG, JPG, JPEG, or GIF.", "error"⟩
          else .ok (store, none)
        | none => .ok (store, none)
      match picStep with
      | .error fl => (db, store, .render "add_student" [fl])
      | .ok (store1, picKey) =>
        -- Handle resume (lines 203-221)
        let resumeStep : Except Flash (Store × Option String) :=
          match form.resume with
          | some f =>
            if f.filename ≠ "" then
              if allowed_file f.filename ["pdf", "doc", "docx"] then
                if f.writeOk then
                  let key := secure_filename ("resume_" ++ name ++ "_" ++ f.filename)
                  .ok (key :: store1, some key)
                else
                  .error ⟨"Error uploading resume", "error"⟩
              else
                .error ⟨"Invalid resume format. Please use PDF, DOC, or DOCX.", "error"⟩
            else .ok (store1, none)
          | none => .ok (store1, none)
        match resumeStep with
        | .error fl => (db, store1, .render "add_student" [fl])
        | .ok (store2, resumeKey) =>
          -- db.session.add + commit (lines 223-227)
          let student : Student :=
            { id := db.nextStudentId, name := name, profile_picture := picKey,
              resume := resumeKey, description := description, skills := skills }
          ({ db with students := db.students ++ [student],
                     nextStudentId := db.nextStudentId + 1 },
           store2,
           .redirect "students" [⟨"Student profile added successfully!", "success"⟩])

/-- The form of POST /student/edit/<id>; request.form.get(key, current) keeps
the current value only when the key is absent, so fields are Options. -/
structure EditStudentForm where
  name : Option String
  description : Option String
  skills : Option String
  profile_picture : Option FilePart
  resume : Option FilePart
deriving Repr, DecidableEq

/-- The best-effort removal of a replaced attachment (try os.remove / except
pass): erase the key when one is stored; a missing key is a no-op. -/
def storeEraseOpt (store : Store) : Option String → Store
  | some old => store.erase old
  | none => store

/-- db.session.commit() at the end of edit_student (app.py lines 273-275):
the updated row replaces the old one. -/
def edit_student_commit (id : Nat) (db : Db) (store : Store) (s1 : Student) :
    Db × Store × Resp :=
  ({ db with students := db.students.map fun s => if s.id = id then s1 else s },
   store,
   .redirect "students" [⟨"Student profile updated successfully!", "success"⟩])

/-- The resume-replacement block of edit_student (app.py lines 263-271): the
old file is removed best-effort (try/except pass), the new save is unguarded,
so a failed save is an uncaught exception — the session rolls back (database
unchanged) but the old file is already gone. -/
def edit_student_resume (id : Nat) (form : EditStudentForm) (db : Db)
    (store : Store) (s1 : Student) : Db × Store × Resp :=
  match form.resume with
  | some f =>
    if f.filename ≠ "" then
      if f.writeOk then
        let key := secure_filename ("resume_" ++ s1.name ++ "_" ++ f.filename)
        edit_student_commit id db (key :: storeEraseOpt store s1.resume)
          { s1 with resume := some key }
      else (db, storeEraseOpt store s1.resume, .serverError)
    else edit_student_commit id db store s1
  | none => edit_student_commit id db store s1

/-- The profile-picture-replacement block of edit_student (app.py lines
253-261), with the row as updated from the form fields: best-effort removal
of the old picture, unguarded save of the new one (a failed write is an
uncaught exception: rollback, database unchanged, old file already gone). -/
def edit_student_pic (id : Nat) (form : EditStudentForm) (db : Db)
    (store : Store) (s1 : Student) : Db × Store × Resp :=
  match form.profile_picture with
  | some f =>
    if f.filename ≠ "" then
      if f.writeOk then
        let key := secure_filename ("profile_" ++ s1.name ++ "_" ++ f.filename)
        edit_student_resume id form db (key :: storeEraseOpt store s1.profile_picture)
          { s1 with profile_picture := some key }
      else (db, storeEraseOpt store s1.profile_picture, .serverError)
    else edit_student_resume id form db store s1
  | none => edit_student_resume id form db store s1

/-- POST /student/edit/<id> (app.py lines 236-277) for an authenticated
caller. Field updates use request.form.get(key, current): a supplied value —
even the empty string — overwrites; an absent key preserves. -/
def edit_student (u : User) (id : Nat) (form : EditStudentForm) (db : Db)
    (store : Store) : Db × Store × Resp :=
  if u.is_admin = false then
    (db, store, .redirect "students" [accessDeniedFlash])
  else
    match findStudent db id with
    | none => (db, store, .notFound)
    | some s0 =>
      edit_student_pic id form db store
        { s0 with
          name := form.name.getD s0.name
          description := form.description.getD s0.description
          skills := form.skills.getD s0.skills }

/-- GET /student/delete/<id> (app.py lines 279-300) for an authenticated
caller. The whole body — both os.remove calls AND the row deletion — is one
try block; os.remove raises on a missing key, which jumps to the except
(lines 297-298) with the row still in place. -/
def delete_student (u : User) (id : Nat) (db : Db) (store : Store) :
    Db × Store × Resp :=
  if u.is_admin = false then
    (db, store, .redirect "students" [accessDeniedFlash])
  else
    match findStudent db id with
    | none => (db, store, .notFound)
    | some s =>
      let step1 : Except Store Store :=
        match s.profile_picture with
        | some k => if store.contains k then .ok (store.erase k) else .error store
        | none => .ok store
      match step1 with
      | .error st =>
        (db, st, .redirect "students" [⟨"Error deleting student profile", "error"⟩])
      | .ok st1 =>
        let step2 : Except Store Store :=
          match s.resume with
          | some k => if st1.contains k then .ok (st1.erase k) else .error st1
          | none => .ok st1
        match step2 with
        | .error st =>
          (db, st, .redirect "students" [⟨"Error deleting student profile", "error"⟩])
        | .ok st2 =>
          ({ db with students := db.students.filter fun t => t.id != id }, st2,
           .redirect "students" [⟨"Student profile deleted successfully!", "success"⟩])

/-- The form of POST /upload; request.form.get returns None when absent, and
the handler only tests truthiness and stores the value, so "" models both a
missing and an empty field. -/
structure UploadForm where
  title : String
  category : String
  description : String
  file : Option FilePart
deriving Repr, DecidableEq

/-- POST /upload (app.py lines 302-331) for an authenticated caller. The
filename is secure_filename(file.filename) — no prefix and no title — and the
save call is not wrapped in a try, so a failed write is an uncaught
exception (500) with nothing persisted. -/
def upload (u : User) (form : UploadForm) (db : Db) (store : Store) :
    Db × Store × Resp :=
  if u.is_admin = false then
    (db, store, .redirect "home" [accessDeniedFlash])
  else
    match form.file with
    | some f =>
      if f.filename ≠ "" ∧ form.title ≠ "" ∧ form.category ≠ "" then
        let filename := secure_filename f.filename
        if f.writeOk then
          let material : Material :=
            { id := db.nextMaterialId, title := form.title,
              category := form.category, filename := filename,
              description := form.description }
          ({ db with materials := db.materials ++ [material],
                     nextMaterialId := db.nextMaterialId + 1 },
           filename :: store,
           .redirect "home" [⟨"Material uploaded successfully!", "success"⟩])
        else (db, store, .serverError)
      else
        (db, store, .render "upload" [⟨"Please fill in all required fields", "error"⟩])
    | none =>
      (db, store, .render "upload" [⟨"Please fill in all required fields", "error"⟩])

/-- GET /delete/<id> (app.py lines 374-389) for an authenticated caller: the
os.remove, the row deletion and the commit share one try block, so a failed
file removal (e.g. a missing key) is caught but skips the row deletion. -/
def delete (u : User) (id : Nat) (db : Db) (store : Store) :
    Db × Store × Resp :=
  if u.is_admin = false then
    (db, store, .redirect "home" [accessDeniedFlash])
  else
    match findMaterial db id with
    | none => (db, store, .notFound)
    | some m =>
      if store.contains m.filename then
        ({ db with materials := db.materials.filter fun t => t.id != id },
         store.erase m.filename,
         .redirect "home" [⟨"Material deleted successfully!", "success"⟩])
      else
        (db, store, .redirect "home" [⟨"Error deleting material", "error"⟩])

/-- The mimetype mapping of the download handler (app.py lines 359-366). -/
def mimeFor (filename : String) : String :=
  let ext := lowerStr (lastExt filename)
  if ext = "png" then "image/png"
  else if ext = "jpg" then "image/jpeg"
  else if ext = "jpeg" then "image/jpeg"
  else if ext = "gif" then "image/gif"
  else "application/octet-stream"

/-- The tail of the download handler (app.py lines 350-369): falsy filename →
404; missing file → 404; image branches compute a mimetype from the last
extension — rsplit indexing raises on a dotless filename and the catch-all
(lines 370-372) turns that into a 404. -/
def downloadServe (isImage : Bool) (filename : String) (store : Store) : Resp :=
  if filename = "" then .notFound
  else if store.contains filename = false then .notFound
  else if isImage then
    if filename.data.contains '.' then .file filename (mimeFor filename)
    else .notFound
  else .file filename ""

/-- GET /download/<id>[/<type>] (app.py lines 333-372). caller = none models
an anonymous request; only the else-branch (materials) checks authentication,
and does so before the lookup. -/
def download (caller : Option User) (id : Nat) (ty : Option String) (db : Db)
    (store : Store) : Resp :=
  if ty = some "gallery" then
    match findGallery db id with
    | none => .notFound
    | some g => downloadServe true g.filename store
  else if ty = some "profile" ∨ ty = some "resume" then
    match findStudent db id with
    | none => .notFound
    | some s =>
      match (if ty = some "profile" then s.profile_picture else s.resume) with
      | none => .notFound
      | some filename =>
        downloadServe (ty = some "profile") filename store
  else
    match caller with
    | none => .redirect "login" [⟨"Please log in to download materials.", "error"⟩]
    | some _ =>
      match findMaterial db id with
      | none => .notFound
      | some m => downloadServe false m.filename store

/-- The form of POST /gallery/upload. -/
structure GalleryForm where
  title : String
  category : String
  description : String
  image : Option FilePart
deriving Repr, DecidableEq

/-- POST /gallery/upload (app.py lines 417-466) for an authenticated caller;
now is the creation timestamp. The save and the existence check sit in a try
whose except redirects back to the upload form. -/
def upload_gallery (u : User) (now : Nat) (form : GalleryForm) (db : Db)
    (store : Store) : Db × Store × Resp :=
  if u.is_admin = false then
    (db, store, .redirect "gallery" [accessDeniedFlash])
  else
    match form.image with
    | some f =>
      if f.filename ≠ "" ∧ form.title ≠ "" ∧ form.category ≠ "" then
        let filename := secure_filename ("gallery_" ++ form.title ++ "_" ++ f.filename)
        if f.writeOk then
          let item : Gallery :=
            { id := db.nextGalleryId, title := form.title,
              category := form.category, filename := filename,
              description := form.description, upload_date := now }
          ({ db with galleries := db.galleries ++ [item],
                     nextGalleryId := db.nextGalleryId + 1 },
           filename :: store,
           .redirect "gallery" [⟨"Image uploaded successfully!", "success"⟩])
        else
          (db, store,
           .redirect "upload_gallery" [⟨"Error uploading image. Please try again.", "error"⟩])
      else
        (db, store, .render "upload_gallery" [⟨"Please fill in all required fields", "error"⟩])
    | none =>
      (db, store, .render "upload_gallery" [⟨"Please fill in all required fields", "error"⟩])

/-- GET /gallery/delete/<id> (app.py lines 468-483): same one-try-block shape
as the material delete. -/
def delete_gallery (u : User) (id : Nat) (db : Db) (store : Store) :
    Db × Store × Resp :=
  if u.is_admin = false then
    (db, store, .redirect "gallery" [accessDeniedFlash])
  else
    match findGallery db id with
    | none => (db, store, .notFound)
    | some g =>
      if store.contains g.filename then
        ({ db with galleries := db.galleries.filter fun t => t.id != id },
         store.erase g.filename,
         .redirect "gallery" [⟨"Image deleted successfully!", "success"⟩])
      else
        (db, store, .redirect "gallery" [⟨"Error deleting image", "error"⟩])

/-- The search filter shared by the dashboard and the search API: applied only
when the stripped search string is non-empty. -/
def applySearch (q : String) (l : List Material) : List Material :=
  if q ≠ "" then l.filter (titleMatches q) else l

/-- The dashboard sort (app.py lines 102-111): az/za on title, anything else
by id descending. -/
def sortDash (sort : String) (l : List Material) : List Material :=
  if sort = "az" then l.insertionSort fun a b => a.title ≤ b.title
  else if sort = "za" then l.insertionSort fun a b => b.title ≤ a.title
  else l.insertionSort fun a b => b.id ≤ a.id

/-- The search-API sort (app.py lines 502-508): az/za on title, otherwise id
descending for "newest" and ascending for anything else. -/
def sortSearch (sort : String) (l : List Material) : List Material :=
  if sort = "az" then l.insertionSort fun a b => a.title ≤ b.title
  else if sort = "za" then l.insertionSort fun a b => b.title ≤ a.title
  else if sort = "newest" then l.insertionSort fun a b => b.id ≤ a.id
  else l.insertionSort fun a b => a.id ≤ b.id

/-- GET /dashboard[/<page>] (app.py lines 85-122): the rendered notes page and
exercises page. Each starts from a fixed category filter, then the search
filter, the sort, and a 10-per-page pagination. -/
def dashboard (page : Nat) (search sort : String) (db : Db) :
    List Material × List Material :=
  (paginate page 10 (sortDash sort (applySearch (pyStrip search)
      (db.materials.filter fun m => m.category == "notes"))),
   paginate page 10 (sortDash sort (applySearch (pyStrip search)
      (db.materials.filter fun m => m.category == "exercise"))))

/-- GET /api/search-materials (app.py lines 485-522): search filter, category
filter (skipped for "all"), sort, then the full match set — query.all(), no
pagination — serialized. -/
def search_materials (search category sort : String) (db : Db) : Resp :=
  let q := pyStrip search
  let step1 := applySearch q db.materials
  let step2 := if category ≠ "all" then step1.filter (fun m => m.category == category) else step1
  .json ((sortSearch sort step2).map serializeMaterial)

/- ------------------------------------------------------------------
Properties of the LIKE matcher: on wildcard-free search strings,
title ILIKE "%q%" is exactly case-insensitive substring occurrence.
------------------------------------------------------------------ -/

theorem likeMatch_cons (c : Char) (ct ps : List Char) :
    likeMatch (c :: ct) ps = likeMatchStep c (likeMatch ct) ps := rfl

theorem likeMatchStep_pct (c : Char) (onTail : List Char → Bool) (pt : List Char) :
    likeMatchStep c onTail ('%' :: pt) =
      (likeMatchStep c onTail pt || onTail ('%' :: pt)) := by
  simp [likeMatchStep]

/-- A pattern "%rest" matches cs exactly when rest matches some suffix of cs. -/
theorem likeMatch_pct (cs pt : List Char) :
    likeMatch cs ('%' :: pt) = true ↔
      ∃ s t, cs = t ++ s ∧ likeMatch s pt = true := by
  induction cs with
  | nil =>
    constructor
    · intro h
      refine ⟨[], [], rfl, ?_⟩
      simpa [likeMatch, likeMatchNil] using h
    · rintro ⟨s, t, h1, h2⟩
      rw [eq_comm, List.append_eq_nil] at h1
      obtain ⟨rfl, rfl⟩ := h1
      simpa [likeMatch, likeMatchNil] using h2
  | cons c ct ih =>
    rw [likeMatch_cons, likeMatchStep_pct, ← likeMatch_cons, Bool.or_eq_true]
    constructor
    · rintro (h | h)
      · exact ⟨c :: ct, [], rfl, h⟩
      · obtain ⟨s, t, rfl, h2⟩ := ih.mp h
        exact ⟨s, c :: t, rfl, h2⟩
    · rintro ⟨s, t, heq, h2⟩
      cases t with
      | nil =>
        left
        simp only [List.nil_append] at heq
        rw [← heq] at h2
        exact h2
      | cons c2 t2 =>
        right
        simp only [List.cons_append, List.cons.injEq] at heq
        exact ih.mpr ⟨s, t2, heq.2, h2⟩

/-- The pattern "%" matches every string. -/
theorem likeMatch_pct_nil (cs : List Char) : likeMatch cs ['%'] = true := by
  induction cs with
  | nil => rfl
  | cons c ct ih =>
    rw [likeMatch_cons, likeMatchStep_pct]
    simp [likeMatchStep, ih]

/-- A wildcard-free pattern followed by "%" matches cs exactly when the
lowercased pattern is a prefix of the lowercased cs. -/
theorem likeMatch_literal_pct (q : List Char) (hq : ∀ c ∈ q, c ≠ '%' ∧ c ≠ '_')
    (cs : List Char) :
    likeMatch cs (q ++ ['%']) = true ↔
      ∃ t, cs.map lowerChar = q.map lowerChar ++ t := by
  induction q generalizing cs with
  | nil =>
    simp only [List.nil_append, List.map_nil]
    exact ⟨fun _ => ⟨cs.map lowerChar, rfl⟩, fun _ => likeMatch_pct_nil cs⟩
  | cons p pt ih =>
    obtain ⟨hp1, hp2⟩ := hq p (by simp)
    have hpt : ∀ c ∈ pt, c ≠ '%' ∧ c ≠ '_' := fun c hc => hq c (by simp [hc])
    cases cs with
    | nil =>
      simp [likeMatch, likeMatchNil, hp1]
    | cons c ct =>
      rw [List.cons_append, likeMatch_cons]
      simp only [likeMatchStep, if_neg hp1, hp2, decide_False, Bool.false_or,
        Bool.and_eq_true, decide_eq_true_eq]
      rw [ih hpt ct]
      simp only [List.map_cons, List.cons_append, List.cons.injEq]
      constructor
      · rintro ⟨h1, t, h2⟩
        exact ⟨t, h1.symm, h2⟩
      · rintro ⟨t, h1, h2⟩
        exact ⟨h1.symm, t, h2⟩

/-- ILIKE "%q%" for a wildcard-free q is case-insensitive substring
occurrence. -/
theorem likeMatch_substring (q cs : List Char)
    (hq : ∀ c ∈ q, c ≠ '%' ∧ c ≠ '_') :
    likeMatch cs ('%' :: (q ++ ['%'])) = true ↔
      ∃ s t, cs.map lowerChar = s ++ q.map lowerChar ++ t := by
  rw [likeMatch_pct]
  constructor
  · rintro ⟨s0, t0, rfl, h⟩
    obtain ⟨t, ht⟩ := (likeMatch_literal_pct q hq s0).mp h
    exact ⟨t0.map lowerChar, t, by simp [ht, List.append_assoc]⟩
  · rintro ⟨s, t, hmap⟩
    refine ⟨cs.drop s.length, cs.take s.length, (List.take_append_drop _ _).symm, ?_⟩
    refine (likeMatch_literal_pct q hq _).mpr ⟨t, ?_⟩
    rw [List.map_drop, hmap, List.append_assoc, List.drop_left]

/-- Convert the executable wildcard-free check into its propositional form. -/
theorem noWild_iff (l : List Char) :
    noWild l = true ↔ ∀ c ∈ l, c ≠ '%' ∧ c ≠ '_' := by
  simp [noWild, List.all_eq_true]

theorem data_append (s t : String) : (s ++ t).data = s.data ++ t.data := rfl

/-- The search filter of the dashboard and the search API, in spec terms:
for a wildcard-free search string, a title matches exactly when the search
string occurs case-insensitively inside it. -/
theorem titleMatches_iff (q : String) (hq : noWild q.data = true) (m : Material) :
    titleMatches q m = true ↔
      ∃ s t, m.title.data.map lowerChar = s ++ q.data.map lowerChar ++ t := by
  have hdata : ("%" ++ q ++ "%").data = '%' :: (q.data ++ ['%']) := rfl
  simp only [titleMatches, ilike, hdata]
  exact likeMatch_substring q.data m.title.data ((noWild_iff q.data).mp hq)

/- ------------------------------------------------------------------
Concrete fixtures for witnesses and counterexamples.
------------------------------------------------------------------ -/

/-- The bootstrap admin account. -/
def adminUser : User := ⟨1, "admin", true⟩

/-- An authenticated non-admin account. -/
def plainUser : User := ⟨2, "bob", false⟩

/-- An empty database. -/
def emptyDb : Db := ⟨[], [], [], 1, 1, 1⟩

/-- A material whose attachment will be missing from the store. -/
def matOrphan : Material := ⟨1, "Algebra", "notes", "f.pdf", "d"⟩

/-- A database holding just matOrphan. -/
def dbOrphan : Db := ⟨[], [matOrphan], [], 1, 2, 1⟩

/-- A gallery image fixture. -/
def galleryPic : Gallery := ⟨1, "Campus", "General", "g.png", "d", 0⟩

/-- A database holding just galleryPic. -/
def dbGallery : Db := ⟨[], [], [galleryPic], 1, 1, 2⟩

/-- A database holding one notes material. -/
def dbNotes : Db := ⟨[], [⟨1, "Algebra", "notes", "a.pdf", "d"⟩], [], 1, 2, 1⟩

/- ------------------------------------------------------------------
Generic helper lemmas.
------------------------------------------------------------------ -/

theorem mem_paginate {α : Type} {page per : Nat} {l : List α} {a : α}
    (h : a ∈ paginate page per l) : a ∈ l :=
  List.mem_of_mem_drop (List.mem_of_mem_take h)

theorem mem_sortDash {sort : String} {l : List Material} {m : Material} :
    m ∈ sortDash sort l ↔ m ∈ l := by
  unfold sortDash
  split
  · exact List.mem_insertionSort _
  · split
    · exact List.mem_insertionSort _
    · exact List.mem_insertionSort _

theorem sortSearch_perm (sort : String) (l : List Material) :
    (sortSearch sort l).Perm l := by
  unfold sortSearch
  split
  · exact List.perm_insertionSort _ _
  · split
    · exact List.perm_insertionSort _ _
    · split
      · exact List.perm_insertionSort _ _
      · exact List.perm_insertionSort _ _

theorem mem_applySearch {q : String} {l : List Material} {m : Material}
    (h : m ∈ applySearch q l) : m ∈ l := by
  unfold applySearch at h
  split at h
  · exact (List.mem_filter.mp h).1
  · exact h

/- ------------------------------------------------------------------
C2: the admin gate on every mutating handler.
------------------------------------------------------------------ -/

/-- C2: every mutating handler (add/edit/delete student profile, upload/delete
material, upload/delete gallery image) reads is_admin afresh as part of the
call at hand — the statement quantifies over every call and every state — and
for a caller whose account is not an admin produces a visible denial (the
access-denied flash plus a redirect, never a silent no-op) while leaving both
the database and the attachment store exactly unchanged. -/
theorem C2_admin_gate (u : User) (h : u.is_admin = false) :
    (∀ form db store, add_student u form db store =
       (db, store, Resp.redirect "students" [accessDeniedFlash])) ∧
    (∀ id form db store, edit_student u id form db store =
       (db, store, Resp.redirect "students" [accessDeniedFlash])) ∧
    (∀ id db store, delete_student u id db store =
       (db, store, Resp.redirect "students" [accessDeniedFlash])) ∧
    (∀ form db store, upload u form db store =
       (db, store, Resp.redirect "home" [accessDeniedFlash])) ∧
    (∀ id db store, delete u id db store =
       (db, store, Resp.redirect "home" [accessDeniedFlash])) ∧
    (∀ now form db store, upload_gallery u now form db store =
       (db, store, Resp.redirect "gallery" [accessDeniedFlash])) ∧
    (∀ id db store, delete_gallery u id db store =
       (db, store, Resp.redirect "gallery" [accessDeniedFlash])) := by
  refine ⟨?_, ?_, ?_, ?_, ?_, ?_, ?_⟩ <;> intros <;>
    simp [add_student, edit_student, delete_student, upload, delete,
      upload_gallery, delete_gallery, h]

/-- C2 witness: a concrete non-admin caller attempting a material delete. -/
theorem C2_witness :
    plainUser.is_admin = false ∧
    delete plainUser 1 dbOrphan ["f.pdf"] =
      (dbOrphan, ["f.pdf"], Resp.redirect "home" [accessDeniedFlash]) :=
  ⟨rfl, (C2_admin_gate plainUser rfl).2.2.2.2.1 1 dbOrphan ["f.pdf"]⟩

/- ------------------------------------------------------------------
C4: empty name rejected by createStudentProfile.
------------------------------------------------------------------ -/

/-- C4: for an admin caller, a name that is empty after stripping makes
createStudentProfile fail with the validation flash; the returned state keeps
the database (no row) and the store (no object) exactly as they were. -/
theorem C4_empty_name_rejected (u : User) (form : AddStudentForm) (db : Db)
    (store : Store) (hadmin : u.is_admin = true)
    (hname : pyStrip form.name = "") :
    add_student u form db store =
      (db, store, Resp.render "add_student"
        [⟨"Please provide the student name", "error"⟩]) := by
  simp [add_student, hadmin, hname]

/-- C4 witness: a whitespace-only name at a concrete state. -/
theorem C4_witness :
    pyStrip "   " = "" ∧
    add_student adminUser ⟨"   ", "d", "s", none, none⟩ emptyDb [] =
      (emptyDb, [], Resp.render "add_student"
        [⟨"Please provide the student name", "error"⟩]) :=
  ⟨by decide,
   C4_empty_name_rejected adminUser ⟨"   ", "d", "s", none, none⟩ emptyDb []
     rfl (by decide)⟩

/- ------------------------------------------------------------------
C10: the dashboard never lists exam materials.
------------------------------------------------------------------ -/

/-- C10: in every state and for every page, search and sort combination, a
material in the dashboard's notes list has category "notes" and one in its
exercises list has category "exercise"; a material with category "exam"
appears in neither. -/
theorem C10_dashboard_categories (page : Nat) (search sort : String) (db : Db)
    (m : Material)
    (h : m ∈ (dashboard page search sort db).1 ∨
         m ∈ (dashboard page search sort db).2) :
    (m.category = "notes" ∨ m.category = "exercise") ∧ m.category ≠ "exam" := by
  have hbase : m.category = "notes" ∨ m.category = "exercise" := by
    simp only [dashboard] at h
    rcases h with h | h
    · left
      have h2 := (List.mem_filter.mp
        (mem_applySearch (mem_sortDash.mp (mem_paginate h)))).2
      simpa using h2
    · right
      have h2 := (List.mem_filter.mp
        (mem_applySearch (mem_sortDash.mp (mem_paginate h)))).2
      simpa using h2
  refine ⟨hbase, ?_⟩
  rcases hbase with h1 | h1 <;> simp [h1]

/-- C10 witness: the concrete notes material is listed on the dashboard and
the theorem applies to it. -/
theorem C10_witness :
    ((⟨1, "Algebra", "notes", "a.pdf", "d"⟩ : Material).category = "notes" ∨
     (⟨1, "Algebra", "notes", "a.pdf", "d"⟩ : Material).category = "exercise") ∧
    (⟨1, "Algebra", "notes", "a.pdf", "d"⟩ : Material).category ≠ "exam" :=
  C10_dashboard_categories 1 "" "newest" dbNotes _ (Or.inl (by decide))

/- ------------------------------------------------------------------
C9: only material downloads are authentication-gated.
------------------------------------------------------------------ -/

/-- C9: the material branch of the download handler (no type segment, or any
type outside gallery/profile/resume) checks authentication before the lookup:
an anonymous caller is always redirected to the login flow with a flash and
no file response is produced; the gallery, profile and resume branches never
consult the caller and serve the file to an anonymous caller when present. -/
theorem C9_download_auth :
    (∀ id ty db store, ty ≠ some "gallery" → ty ≠ some "profile" →
       ty ≠ some "resume" →
       download none id ty db store =
         Resp.redirect "login" [⟨"Please log in to download materials.", "error"⟩]) ∧
    (∀ id db store g, findGallery db id = some g → g.filename ≠ "" →
       g.filename ∈ store → '.' ∈ g.filename.data →
       download none id (some "gallery") db store =
         Resp.file g.filename (mimeFor g.filename)) ∧
    (∀ id db store s fn, findStudent db id = some s →
       s.profile_picture = some fn → fn ≠ "" → fn ∈ store →
       '.' ∈ fn.data →
       download none id (some "profile") db store = Resp.file fn (mimeFor fn)) ∧
    (∀ id db store s fn, findStudent db id = some s → s.resume = some fn →
       fn ≠ "" → fn ∈ store →
       download none id (some "resume") db store = Resp.file fn "") := by
  refine ⟨?_, ?_, ?_, ?_⟩
  · intro id ty db store h1 h2 h3
    simp [download, h1, h2, h3]
  · intro id db store g hg hfn hstore hdot
    simp [download, downloadServe, hg, hfn, hstore, hdot]
  · intro id db store s fn hs hpic hfn hstore hdot
    simp [download, downloadServe, hs, hpic, hfn, hstore, hdot]
  · intro id db store s fn hs hres hfn hstore
    simp [download, downloadServe, hs, hres, hfn, hstore]

/-- C9 witness: an anonymous material download is redirected to login while
the same anonymous caller is served a gallery image. -/
theorem C9_witness :
    download none 1 none dbNotes ["a.pdf"] =
      Resp.redirect "login" [⟨"Please log in to download materials.", "error"⟩] ∧
    download none 1 (some "gallery") dbGallery ["g.png"] =
      Resp.file "g.png" (mimeFor "g.png") :=
  ⟨C9_download_auth.1 1 none dbNotes ["a.pdf"] (by decide) (by decide) (by decide),
   C9_download_auth.2.1 1 dbGallery ["g.png"] galleryPic (by decide) (by decide)
     (by decide) (by decide)⟩

/- ------------------------------------------------------------------
C1: delete failures do not raise, but they abort the row removal.
------------------------------------------------------------------ -/

/-- C1 counterexample: an admin deletes an existing material whose attachment
key is missing from the store; the handler does not raise — the caller gets
an error flash and the normal redirect — but the database row removal does
NOT proceed: the row is still present afterwards, so the claim's "the row no
longer exists" fails. -/
theorem C1_counterexample :
    delete adminUser 1 dbOrphan [] =
      (dbOrphan, [], Resp.redirect "home" [⟨"Error deleting material", "error"⟩]) ∧
    findMaterial dbOrphan 1 = some matOrphan := by
  decide

/-- C1 amended: for every delete operation applied to an existing record, a
failure of the attachment-file deletion (such as the key being missing from
the store) does not raise to the caller — it is caught and surfaced as an
error flash with the normal redirect — but it aborts the remainder of the
handler: the database row is NOT removed, and attachments already removed
before the failure stay removed (the student case where the picture removal
succeeded and the resume removal then fails). The row removal proceeds
exactly when every required attachment removal succeeds: for material and
gallery deletes the two modes, and for student deletes every failure point
(picture missing; resume missing with the picture absent or with the picture
already removed) and every success mode (no attachments, picture only,
resume only, both attachments). -/
theorem C1_amended_delete_failure (u : User) (hadmin : u.is_admin = true) :
    (∀ id db store m, findMaterial db id = some m →
       m.filename ∉ store →
       delete u id db store =
         (db, store, Resp.redirect "home" [⟨"Error deleting material", "error"⟩])) ∧
    (∀ id db store m, findMaterial db id = some m →
       m.filename ∈ store →
       delete u id db store =
         ({ db with materials := db.materials.filter fun t => t.id != id },
          store.erase m.filename,
          Resp.redirect "home" [⟨"Material deleted successfully!", "success"⟩])) ∧
    (∀ id db store g, findGallery db id = some g →
       g.filename ∉ store →
       delete_gallery u id db store =
         (db, store, Resp.redirect "gallery" [⟨"Error deleting image", "error"⟩])) ∧
    (∀ id db store g, findGallery db id = some g →
       g.filename ∈ store →
       delete_gallery u id db store =
         ({ db with galleries := db.galleries.filter fun t => t.id != id },
          store.erase g.filename,
          Resp.redirect "gallery" [⟨"Image deleted successfully!", "success"⟩])) ∧
    (∀ id db store s k, findStudent db id = some s →
       s.profile_picture = some k → k ∉ store →
       delete_student u id db store =
         (db, store,
          Resp.redirect "students" [⟨"Error deleting student profile", "error"⟩])) ∧
    (∀ id db store s, findStudent db id = some s →
       s.profile_picture = none → s.resume = none →
       delete_student u id db store =
         ({ db with students := db.students.filter fun t => t.id != id }, store,
          Resp.redirect "students"
            [⟨"Student profile deleted successfully!", "success"⟩])) ∧
    (∀ id db store s k, findStudent db id = some s →
       s.profile_picture = none → s.resume = some k → k ∉ store →
       delete_student u id db store =
         (db, store,
          Resp.redirect "students" [⟨"Error deleting student profile", "error"⟩])) ∧
    (∀ id db store s k1 k2, findStudent db id = some s →
       s.profile_picture = some k1 → k1 ∈ store →
       s.resume = some k2 → k2 ∉ store.erase k1 →
       delete_student u id db store =
         (db, store.erase k1,
          Resp.redirect "students" [⟨"Error deleting student profile", "error"⟩])) ∧
    (∀ id db store s k1, findStudent db id = some s →
       s.profile_picture = some k1 → k1 ∈ store → s.resume = none →
       delete_student u id db store =
         ({ db with students := db.students.filter fun t => t.id != id },
          store.erase k1,
          Resp.redirect "students"
            [⟨"Student profile deleted successfully!", "success"⟩])) ∧
    (∀ id db store s k, findStudent db id = some s →
       s.profile_picture = none → s.resume = some k → k ∈ store →
       delete_student u id db store =
         ({ db with students := db.students.filter fun t => t.id != id },
          store.erase k,
          Resp.redirect "students"
            [⟨"Student profile deleted successfully!", "success"⟩])) ∧
    (∀ id db store s k1 k2, findStudent db id = some s →
       s.profile_picture = some k1 → k1 ∈ store →
       s.resume = some k2 → k2 ∈ store.erase k1 →
       delete_student u id db store =
         ({ db with students := db.students.filter fun t => t.id != id },
          (store.erase k1).erase k2,
          Resp.redirect "students"
            [⟨"Student profile deleted successfully!", "success"⟩])) := by
  refine ⟨?_, ?_, ?_, ?_, ?_, ?_, ?_, ?_, ?_, ?_, ?_⟩
  · intro id db store m hm hc
    simp [delete, hadmin, hm, hc]
  · intro id db store m hm hc
    simp [delete, hadmin, hm, hc]
  · intro id db store g hg hc
    simp [delete_gallery, hadmin, hg, hc]
  · intro id db store g hg hc
    simp [delete_gallery, hadmin, hg, hc]
  · intro id db store s k hs hpic hc
    simp [delete_student, hadmin, hs, hpic, hc]
  · intro id db store s hs hpic hres
    simp [delete_student, hadmin, hs, hpic, hres]
  · intro id db store s k hs hpic hres hc
    simp [delete_student, hadmin, hs, hpic, hres, hc]
  · intro id db store s k1 k2 hs hpic hc1 hres hc2
    simp [delete_student, hadmin, hs, hpic, hc1, hres, hc2]
  · intro id db store s k1 hs hpic hc1 hres
    simp [delete_student, hadmin, hs, hpic, hc1, hres]
  · intro id db store s k hs hpic hres hc
    simp [delete_student, hadmin, hs, hpic, hres, hc]
  · intro id db store s k1 k2 hs hpic hc1 hres hc2
    simp [delete_student, hadmin, hs, hpic, hc1, hres, hc2]

/-- A student fixture owning both attachments. -/
def bothStudent : Student := ⟨1, "Bob", some "p.png", some "r.pdf", "", ""⟩

/-- A database holding just bothStudent. -/
def dbBoth : Db := ⟨[bothStudent], [], [], 2, 1, 1⟩

/-- C1 witness: at concrete states, the material success mode (key present:
file and row both removed), and the student mixed mode (picture removal
succeeds, resume key missing): the picture stays removed, the caller gets
the error flash, and the row survives. -/
theorem C1_witness :
    delete adminUser 1 dbOrphan ["f.pdf"] =
      ({ dbOrphan with materials := dbOrphan.materials.filter fun t => t.id != 1 },
       List.erase ["f.pdf"] matOrphan.filename,
       Resp.redirect "home" [⟨"Material deleted successfully!", "success"⟩]) ∧
    delete_student adminUser 1 dbBoth ["p.png"] =
      (dbBoth, List.erase ["p.png"] "p.png",
       Resp.redirect "students" [⟨"Error deleting student profile", "error"⟩]) :=
  ⟨(C1_amended_delete_failure adminUser rfl).2.1 1 dbOrphan ["f.pdf"] matOrphan
     (by decide) (by decide),
   (C1_amended_delete_failure adminUser rfl).2.2.2.2.2.2.2.1 1 dbBoth ["p.png"]
     bothStudent "p.png" "r.pdf" (by decide) rfl (by decide) rfl (by decide)⟩

/- ------------------------------------------------------------------
C3: a failed attachment write aborts the create; no orphaned row.
------------------------------------------------------------------ -/

/-- C3: when the filesystem write of an attachment fails during a create, the
operation aborts — an error flash and a re-rendered form for student
profiles, an uncaught exception (500) for materials, an error flash and
redirect for gallery images — and the database is returned unchanged: no row
referencing the unwritten key is persisted. The third conjunct shows the
mixed case: the earlier profile picture was written, the resume write fails,
and still no row is persisted. -/
theorem C3_write_failure_no_orphan_row (u : User) (hadmin : u.is_admin = true) :
    (∀ form db store f, pyStrip form.name ≠ "" → form.profile_picture = some f →
       f.filename ≠ "" →
       allowed_file f.filename ["png", "jpg", "jpeg", "gif"] = true →
       f.writeOk = false →
       add_student u form db store =
         (db, store, Resp.render "add_student"
           [⟨"Error uploading profile picture", "error"⟩])) ∧
    (∀ form db store f, pyStrip form.name ≠ "" → form.profile_picture = none →
       form.resume = some f → f.filename ≠ "" →
       allowed_file f.filename ["pdf", "doc", "docx"] = true →
       f.writeOk = false →
       add_student u form db store =
         (db, store, Resp.render "add_student"
           [⟨"Error uploading resume", "error"⟩])) ∧
    (∀ form db store g f, pyStrip form.name ≠ "" → form.profile_picture = some g →
       g.filename ≠ "" →
       allowed_file g.filename ["png", "jpg", "jpeg", "gif"] = true →
       g.writeOk = true →
       form.resume = some f → f.filename ≠ "" →
       allowed_file f.filename ["pdf", "doc", "docx"] = true →
       f.writeOk = false →
       add_student u form db store =
         (db,
          secure_filename ("profile_" ++ pyStrip form.name ++ "_" ++ g.filename)
            :: store,
          Resp.render "add_student" [⟨"Error uploading resume", "error"⟩])) ∧
    (∀ form db store f, form.file = some f → f.filename ≠ "" →
       form.title ≠ "" → form.category ≠ "" → f.writeOk = false →
       upload u form db store = (db, store, Resp.serverError)) ∧
    (∀ now form db store f, form.image = some f → f.filename ≠ "" →
       form.title ≠ "" → form.category ≠ "" → f.writeOk = false →
       upload_gallery u now form db store =
         (db, store, Resp.redirect "upload_gallery"
           [⟨"Error uploading image. Please try again.", "error"⟩])) := by
  refine ⟨?_, ?_, ?_, ?_, ?_⟩
  · intro form db store f hn hp hf ha hw
    simp [add_student, hadmin, hn, hp, hf, ha, hw]
  · intro form db store f hn hp hr hf ha hw
    simp [add_student, hadmin, hn, hp, hr, hf, ha, hw]
  · intro form db store g f hn hp hgf hga hgw hr hf ha hw
    simp [add_student, hadmin, hn, hp, hgf, hga, hgw, hr, hf, ha, hw]
  · intro form db store f hp hf ht hc hw
    simp [upload, hadmin, hp, hf, ht, hc, hw]
  · intro now form db store f hp hf ht hc hw
    simp [upload_gallery, hadmin, hp, hf, ht, hc, hw]

/-- C3 witness: a failing profile-picture write at a concrete state. -/
theorem C3_witness :
    add_student adminUser ⟨"Ann", "", "", some ⟨"a.png", false⟩, none⟩ emptyDb [] =
      (emptyDb, [], Resp.render "add_student"
        [⟨"Error uploading profile picture", "error"⟩]) :=
  (C3_write_failure_no_orphan_row adminUser rfl).1
    ⟨"Ann", "", "", some ⟨"a.png", false⟩, none⟩ emptyDb [] ⟨"a.png", false⟩
    (by decide) rfl (by decide) (by decide) rfl

/- ------------------------------------------------------------------
C5: extension validation per attachment class.
------------------------------------------------------------------ -/

/-- C5 counterexample: an admin submits a valid profile picture together with
a resume bearing a disallowed extension; the handler does flash the resume
ValidationError and persists no record, but the store HAS gained a new
object — the profile picture saved before the resume was validated — so
"no new object written to the store" fails. -/
theorem C5_counterexample :
    add_student adminUser
        ⟨"Ann", "", "", some ⟨"a.png", true⟩, some ⟨"cv.txt", true⟩⟩ emptyDb [] =
      (emptyDb, ["profile_Ann_a.png"],
       Resp.render "add_student"
         [⟨"Invalid resume format. Please use PDF, DOC, or DOCX.", "error"⟩]) ∧
    ["profile_Ann_a.png"] ≠ ([] : Store) := by
  decide

/-- C5 amended: a profile picture with an extension outside png/jpg/jpeg/gif
is always rejected with a ValidationError flash, nothing persisted and the
store unchanged; a resume with an extension outside pdf/doc/docx is always
rejected with a ValidationError flash, no record persisted and no resume
object written — but a valid profile picture submitted in the same request
has already been written and remains in the store. createMaterial and
createGalleryImage accept files of any extension. -/
theorem C5_amended_extension_validation (u : User) (hadmin : u.is_admin = true) :
    (∀ form db store f, pyStrip form.name ≠ "" → form.profile_picture = some f →
       f.filename ≠ "" →
       allowed_file f.filename ["png", "jpg", "jpeg", "gif"] = false →
       add_student u form db store =
         (db, store, Resp.render "add_student"
           [⟨"Invalid image format. Please use PNG, JPG, JPEG, or GIF.", "error"⟩])) ∧
    (∀ form db store f, pyStrip form.name ≠ "" → form.profile_picture = none →
       form.resume = some f → f.filename ≠ "" →
       allowed_file f.filename ["pdf", "doc", "docx"] = false →
       add_student u form db store =
         (db, store, Resp.render "add_student"
           [⟨"Invalid resume format. Please use PDF, DOC, or DOCX.", "error"⟩])) ∧
    (∀ form db store g f, pyStrip form.name ≠ "" → form.profile_picture = some g →
       g.filename ≠ "" →
       allowed_file g.filename ["png", "jpg", "jpeg", "gif"] = true →
       g.writeOk = true →
       form.resume = some f → f.filename ≠ "" →
       allowed_file f.filename ["pdf", "doc", "docx"] = false →
       add_student u form db store =
         (db,
          secure_filename ("profile_" ++ pyStrip form.name ++ "_" ++ g.filename)
            :: store,
          Resp.render "add_student"
            [⟨"Invalid resume format. Please use PDF, DOC, or DOCX.", "error"⟩])) ∧
    (∀ form db store f, form.file = some f → f.filename ≠ "" →
       form.title ≠ "" → form.category ≠ "" → f.writeOk = true →
       upload u form db store =
         ({ db with
            materials := db.materials ++
              [{ id := db.nextMaterialId, title := form.title,
                 category := form.category,
                 filename := secure_filename f.filename,
                 description := form.description }],
            nextMaterialId := db.nextMaterialId + 1 },
          secure_filename f.filename :: store,
          Resp.redirect "home" [⟨"Material uploaded successfully!", "success"⟩])) ∧
    (∀ now form db store f, form.image = some f → f.filename ≠ "" →
       form.title ≠ "" → form.category ≠ "" → f.writeOk = true →
       upload_gallery u now form db store =
         ({ db with
            galleries := db.galleries ++
              [{ id := db.nextGalleryId, title := form.title,
                 category := form.category,
                 filename := secure_filename
                   ("gallery_" ++ form.title ++ "_" ++ f.filename),
                 description := form.description, upload_date := now }],
            nextGalleryId := db.nextGalleryId + 1 },
          secure_filename ("gallery_" ++ form.title ++ "_" ++ f.filename) :: store,
          Resp.redirect "gallery" [⟨"Image uploaded successfully!", "success"⟩])) := by
  refine ⟨?_, ?_, ?_, ?_, ?_⟩
  · intro form db store f hn hp hf ha
    simp [add_student, hadmin, hn, hp, hf, ha]
  · intro form db store f hn hp hr hf ha
    simp [add_student, hadmin, hn, hp, hr, hf, ha]
  · intro form db store g f hn hp hgf hga hgw hr hf ha
    simp [add_student, hadmin, hn, hp, hgf, hga, hgw, hr, hf, ha]
  · intro form db store f hp hf ht hc hw
    simp [upload, hadmin, hp, hf, ht, hc, hw]
  · intro now form db store f hp hf ht hc hw
    simp [upload_gallery, hadmin, hp, hf, ht, hc, hw]

/-- C5 witness: a disallowed profile-picture extension at a concrete state. -/
theorem C5_witness :
    add_student adminUser ⟨"Ann", "", "", some ⟨"a.txt", true⟩, none⟩ emptyDb [] =
      (emptyDb, [], Resp.render "add_student"
        [⟨"Invalid image format. Please use PNG, JPG, JPEG, or GIF.", "error"⟩]) :=
  (C5_amended_extension_validation adminUser rfl).1
    ⟨"Ann", "", "", some ⟨"a.txt", true⟩, none⟩ emptyDb [] ⟨"a.txt", true⟩
    (by decide) rfl (by decide) (by decide)

/- ------------------------------------------------------------------
C6: the non-empty-name invariant and its failure under edits.
------------------------------------------------------------------ -/

/-- A student fixture with a non-empty name. -/
def alice : Student := ⟨1, "Alice", none, none, "", ""⟩

/-- A database holding just alice. -/
def dbAlice : Db := ⟨[alice], [], [], 2, 1, 1⟩

/-- Any student row present after add_student is either an old row or the
newly inserted row, whose name is the stripped form name — non-empty, since
the insertion only happens past the validation. -/
theorem add_student_students_mem (u : User) (form : AddStudentForm) (db : Db)
    (store : Store) (s : Student)
    (h : s ∈ (add_student u form db store).1.students) :
    s ∈ db.students ∨ (s.name = pyStrip form.name ∧ pyStrip form.name ≠ "") := by
  by_cases h1 : u.is_admin = false
  · simp only [add_student, if_pos h1] at h
    exact Or.inl h
  · by_cases h2 : pyStrip form.name = ""
    · simp only [add_student, if_neg h1, if_pos h2] at h
      exact Or.inl h
    · simp only [add_student, if_neg h1, if_neg h2] at h
      split at h
      · exact Or.inl h
      · split at h
        · exact Or.inl h
        · simp only [List.mem_append, List.mem_singleton] at h
          rcases h with h | h
          · exact Or.inl h
          · subst h
            exact Or.inr ⟨rfl, h2⟩

/-- The resume block of an edit leaves the student table either untouched
(failed write, session rollback) or updated with a row sharing s1's name. -/
theorem edit_student_resume_students (id : Nat) (form : EditStudentForm)
    (db : Db) (store : Store) (s1 : Student) :
    (edit_student_resume id form db store s1).1.students = db.students ∨
    ∃ s2 : Student, s2.name = s1.name ∧
      (edit_student_resume id form db store s1).1.students =
        db.students.map fun s => if s.id = id then s2 else s := by
  unfold edit_student_resume
  split
  · split
    · split
      · refine Or.inr ⟨_, ?_, rfl⟩
        rfl
      · exact Or.inl rfl
    · exact Or.inr ⟨s1, rfl, rfl⟩
  · exact Or.inr ⟨s1, rfl, rfl⟩

/-- The picture block likewise only ever writes back a row with s1's name. -/
theorem edit_student_pic_students (id : Nat) (form : EditStudentForm)
    (db : Db) (store : Store) (s1 : Student) :
    (edit_student_pic id form db store s1).1.students = db.students ∨
    ∃ s2 : Student, s2.name = s1.name ∧
      (edit_student_pic id form db store s1).1.students =
        db.students.map fun s => if s.id = id then s2 else s := by
  unfold edit_student_pic
  split
  · split
    · split
      · exact edit_student_resume_students id form db _ _
      · exact Or.inl rfl
    · exact edit_student_resume_students id form db store s1
  · exact edit_student_resume_students id form db store s1

/-- An admin edit of an existing student leaves the table either untouched or
updated at one id with a row whose name is the submitted name if one was
supplied and the stored name otherwise. -/
theorem edit_student_students (u : User) (id : Nat) (form : EditStudentForm)
    (db : Db) (store : Store) (s0 : Student) (hadmin : u.is_admin = true)
    (hf : findStudent db id = some s0) :
    (edit_student u id form db store).1.students = db.students ∨
    ∃ s2 : Student, s2.name = form.name.getD s0.name ∧
      (edit_student u id form db store).1.students =
        db.students.map fun s => if s.id = id then s2 else s := by
  unfold edit_student
  rw [hadmin, if_neg (by simp), hf]
  exact edit_student_pic_students id form db store _

/-- An admin edit of a missing id is a plain 404 with no state change. -/
theorem edit_student_notFound (u : User) (id : Nat) (form : EditStudentForm)
    (db : Db) (store : Store) (hadmin : u.is_admin = true)
    (hf : findStudent db id = none) :
    edit_student u id form db store = (db, store, Resp.notFound) := by
  simp [edit_student, hadmin, hf]

/-- C6 counterexample: an admin edit of Alice that submits an empty name
field commits a persisted StudentProfile row whose name is "" — the
invariant "every persisted StudentProfile row has a non-empty name" fails. -/
theorem C6_counterexample :
    edit_student adminUser 1 ⟨some "", none, none, none, none⟩ dbAlice [] =
      ({ dbAlice with students := [⟨1, "", none, none, "", ""⟩] }, [],
       Resp.redirect "students"
         [⟨"Student profile updated successfully!", "success"⟩]) ∧
    (edit_student adminUser 1 ⟨some "", none, none, none, none⟩
        dbAlice []).1.students.map Student.name = [""] := by
  decide

/-- C6 amended: creation does uphold the invariant — any row present after
add_student is an old row or carries the non-empty stripped name — and an
edit whose form omits the name field preserves all names; but
updateStudentProfile applies a supplied name verbatim, with no validation
and not even stripping, so an edit posting an empty name leaves a persisted
StudentProfile whose name is empty (the third conjunct, with the submitted
name n arbitrary — including ""). -/
theorem C6_amended_name_invariant :
    (∀ u form db store s, s ∈ (add_student u form db store).1.students →
       s ∈ db.students ∨ (s.name = pyStrip form.name ∧ pyStrip form.name ≠ "")) ∧
    (∀ u id form db store, u.is_admin = true → form.name = none →
       (∀ s ∈ db.students, s.name ≠ "") →
       ∀ s ∈ (edit_student u id form db store).1.students, s.name ≠ "") ∧
    (∀ u id form db store s0 n, u.is_admin = true →
       findStudent db id = some s0 → form.name = some n →
       form.profile_picture = none → form.resume = none →
       edit_student u id form db store =
         ({ db with
            students := db.students.map fun s =>
              if s.id = id then
                { s0 with
                  name := n,
                  description := form.description.getD s0.description,
                  skills := form.skills.getD s0.skills }
              else s },
          store,
          Resp.redirect "students"
            [⟨"Student profile updated successfully!", "success"⟩])) := by
  refine ⟨add_student_students_mem, ?_, ?_⟩
  · intro u id form db store hadmin hname hall s hs
    by_cases hf : (findStudent db id).isSome
    · obtain ⟨s0, hf⟩ := Option.isSome_iff_exists.mp hf
      rcases edit_student_students u id form db store s0 hadmin hf with h | ⟨s2, hs2, h⟩
      · rw [h] at hs
        exact hall s hs
      · rw [h] at hs
        obtain ⟨orig, horig, heq⟩ := List.mem_map.mp hs
        by_cases hid : orig.id = id
        · rw [if_pos hid] at heq
          subst heq
          rw [hs2, hname]
          exact hall s0 (List.mem_of_find?_eq_some hf)
        · rw [if_neg hid] at heq
          subst heq
          exact hall orig horig
    · rw [Option.isSome_iff_exists] at hf
      push_neg at hf
      have hnone : findStudent db id = none := by
        cases hx : findStudent db id with
        | none => rfl
        | some v => exact absurd hx (hf v)
      rw [edit_student_notFound u id form db store hadmin hnone] at hs
      exact hall s hs
  · intro u id form db store s0 n hadmin hf hname hpic hres
    simp [edit_student, hadmin, hf, hpic, edit_student_pic,
      edit_student_resume, hres, edit_student_commit, hname]

/-- C6 witness: the creation-side guarantee applied to the row just inserted
by a concrete add_student call. -/
theorem C6_witness :
    (⟨1, "Ann", none, none, "", ""⟩ : Student) ∈ emptyDb.students ∨
    ((⟨1, "Ann", none, none, "", ""⟩ : Student).name = pyStrip "Ann" ∧
      pyStrip "Ann" ≠ "") :=
  C6_amended_name_invariant.1 adminUser ⟨"Ann", "", "", none, none⟩ emptyDb []
    ⟨1, "Ann", none, none, "", ""⟩ (by decide)

/- ------------------------------------------------------------------
C7: storage-key derivation per attachment class.
------------------------------------------------------------------ -/

/-- C7 counterexample: the material upload derives its storage key as
secure_filename of the original name alone — for title "Algebra" and file
"notes.pdf" the stored key is "notes.pdf", which combines no fixed class
prefix and no owner display key (the title does not occur in it, even
case-insensitively). -/
theorem C7_counterexample :
    (upload adminUser ⟨"Algebra", "notes", "", some ⟨"notes.pdf", true⟩⟩
        emptyDb []).2.1 = ["notes.pdf"] ∧
    secure_filename "notes.pdf" = "notes.pdf" ∧
    ¬ ∃ s t, "notes.pdf".data.map lowerChar =
        s ++ "Algebra".data.map lowerChar ++ t := by
  refine ⟨by decide, by decide, fun hsub => ?_⟩
  have h := (likeMatch_substring "Algebra".data "notes.pdf".data
    (by decide)).mpr hsub
  exact absurd h (by decide)

/-- C7 amended: profile pictures, resumes and gallery images derive their
storage key as secure_filename of a fixed per-class prefix ("profile_",
"resume_", "gallery_"), the owner's current display key (name or title at
the time of the call) and the original file name; the material upload flow,
however, derives its key as secure_filename of the original file name alone
— no prefix and no display key. -/
theorem C7_amended_storage_keys (u : User) (hadmin : u.is_admin = true) :
    (∀ form db store f, pyStrip form.name ≠ "" → form.profile_picture = some f →
       f.filename ≠ "" →
       allowed_file f.filename ["png", "jpg", "jpeg", "gif"] = true →
       f.writeOk = true → form.resume = none →
       add_student u form db store =
         ({ db with
            students := db.students ++
              [{ id := db.nextStudentId, name := pyStrip form.name,
                 profile_picture := some (secure_filename
                   ("profile_" ++ pyStrip form.name ++ "_" ++ f.filename)),
                 resume := none,
                 description := pyStrip form.description,
                 skills := pyStrip form.skills }],
            nextStudentId := db.nextStudentId + 1 },
          secure_filename ("profile_" ++ pyStrip form.name ++ "_" ++ f.filename)
            :: store,
          Resp.redirect "students"
            [⟨"Student profile added successfully!", "success"⟩])) ∧
    (∀ form db store f, pyStrip form.name ≠ "" → form.profile_picture = none →
       form.resume = some f → f.filename ≠ "" →
       allowed_file f.filename ["pdf", "doc", "docx"] = true →
       f.writeOk = true →
       add_student u form db store =
         ({ db with
            students := db.students ++
              [{ id := db.nextStudentId, name := pyStrip form.name,
                 profile_picture := none,
                 resume := some (secure_filename
                   ("resume_" ++ pyStrip form.name ++ "_" ++ f.filename)),
                 description := pyStrip form.description,
                 skills := pyStrip form.skills }],
            nextStudentId := db.nextStudentId + 1 },
          secure_filename ("resume_" ++ pyStrip form.name ++ "_" ++ f.filename)
            :: store,
          Resp.redirect "students"
            [⟨"Student profile added successfully!", "success"⟩])) ∧
    (∀ now form db store f, form.image = some f → f.filename ≠ "" →
       form.title ≠ "" → form.category ≠ "" → f.writeOk = true →
       ((upload_gallery u now form db store).1.galleries.map Gallery.filename) =
         db.galleries.map Gallery.filename ++
           [secure_filename ("gallery_" ++ form.title ++ "_" ++ f.filename)]) ∧
    (∀ form db store f, form.file = some f → f.filename ≠ "" →
       form.title ≠ "" → form.category ≠ "" → f.writeOk = true →
       ((upload u form db store).1.materials.map Material.filename) =
         db.materials.map Material.filename ++ [secure_filename f.filename]) := by
  refine ⟨?_, ?_, ?_, ?_⟩
  · intro form db store f hn hp hf ha hw hr
    simp [add_student, hadmin, hn, hp, hf, ha, hw, hr]
  · intro form db store f hn hp hr hf ha hw
    simp [add_student, hadmin, hn, hp, hr, hf, ha, hw]
  · intro now form db store f hp hf ht hc hw
    simp [upload_gallery, hadmin, hp, hf, ht, hc, hw]
  · intro form db store f hp hf ht hc hw
    simp [upload, hadmin, hp, hf, ht, hc, hw]

/-- C7 witness: a concrete gallery upload stores exactly the prefixed,
title-bearing, sanitized key. -/
theorem C7_witness :
    ((upload_gallery adminUser 0
        ⟨"Campus", "General", "", some ⟨"pic 1.png", true⟩⟩
        emptyDb []).1.galleries.map Gallery.filename) =
      emptyDb.galleries.map Gallery.filename ++
        [secure_filename ("gallery_" ++ "Campus" ++ "_" ++ "pic 1.png")] :=
  (C7_amended_storage_keys adminUser rfl).2.2.1 0
    ⟨"Campus", "General", "", some ⟨"pic 1.png", true⟩⟩ emptyDb []
    ⟨"pic 1.png", true⟩ rfl (by decide) (by decide) (by decide) rfl

/- ------------------------------------------------------------------
C8: the search-API contract.
------------------------------------------------------------------ -/

theorem mem_sortSearch {sort : String} {l : List Material} {m : Material} :
    m ∈ sortSearch sort l ↔ m ∈ l :=
  (sortSearch_perm sort l).mem_iff

theorem mem_applySearch_iff (q : String) (l : List Material) (m : Material) :
    m ∈ applySearch q l ↔ m ∈ l ∧ (q = "" ∨ titleMatches q m = true) := by
  unfold applySearch
  by_cases hq : q = ""
  · simp [hq]
  · simp [hq, List.mem_filter]

/-- The two filter stages of the search API, as one combined filter. -/
theorem search_step_eq (q category : String) (l : List Material) :
    (if category ≠ "all" then
        (applySearch q l).filter (fun m => m.category == category)
     else applySearch q l) =
      l.filter fun m => (q == "" || titleMatches q m) &&
        (category == "all" || m.category == category) := by
  unfold applySearch
  by_cases hq : q = ""
  · by_cases hc : category = "all"
    · simp [hq, hc]
    · simp only [hq, hc]
      simp only [ne_eq, not_true_eq_false, if_false, not_false_eq_true, if_true,
        ite_not]
      simp [hq, hc]
      refine List.filter_congr fun m hm => ?_
      have hcb : (category == "all") = false := by simp [hc]
      rw [hcb, Bool.false_or]
  · by_cases hc : category = "all"
    · simp [hq, hc]
      refine List.filter_congr fun m hm => ?_
      have hqb : (q == "") = false := by simp [hq]
      rw [hqb, Bool.false_or]
    · simp [hq, hc, List.filter_filter]
      refine List.filter_congr fun m hm => ?_
      have hqb : (q == "") = false := by simp [hq]
      have hcb : (category == "all") = false := by simp [hc]
      rw [hqb, hcb, Bool.false_or, Bool.false_or, Bool.and_comm]

/-- Membership in the filtered set, in spec terms (wildcard-free search). -/
theorem mem_search_step (q category : String) (l : List Material) (m : Material)
    (hq : noWild q.data = true) :
    (m ∈ (if category ≠ "all" then
            (applySearch q l).filter (fun x => x.category == category)
          else applySearch q l)) ↔
      m ∈ l ∧
      (q = "" ∨ ∃ s t, m.title.data.map lowerChar =
          s ++ q.data.map lowerChar ++ t) ∧
      (category = "all" ∨ m.category = category) := by
  have hsub : (q = "" ∨ titleMatches q m = true) ↔
      (q = "" ∨ ∃ s t, m.title.data.map lowerChar =
        s ++ q.data.map lowerChar ++ t) :=
    or_congr Iff.rfl (titleMatches_iff q hq m)
  by_cases hc : category = "all"
  · rw [if_neg (by simp [hc])]
    rw [mem_applySearch_iff, hsub]
    constructor
    · rintro ⟨h1, h2⟩
      exact ⟨h1, h2, Or.inl hc⟩
    · rintro ⟨h1, h2, _⟩
      exact ⟨h1, h2⟩
  · rw [if_pos hc, List.mem_filter, mem_applySearch_iff, hsub]
    constructor
    · rintro ⟨⟨h1, h2⟩, h3⟩
      exact ⟨h1, h2, Or.inr (by simpa using h3)⟩
    · rintro ⟨h1, h2, h3⟩
      rcases h3 with h3 | h3
      · exact absurd h3 hc
      · exact ⟨⟨h1, h2⟩, by simpa using h3⟩

/-- A material with a wildcard-matching title. -/
def matWild : Material := ⟨1, "axb", "notes", "f.pdf", "d"⟩

/-- A database holding just matWild. -/
def dbWild : Db := ⟨[], [matWild], [], 1, 2, 1⟩

/-- C8 counterexample: the search string is interpolated into the LIKE
pattern, so searching "a%b" returns the material titled "axb" although
"a%b" is not a (case-insensitive) substring of "axb" — the title filter is
not substring matching once the search string carries a LIKE wildcard. -/
theorem C8_counterexample :
    search_materials "a%b" "all" "newest" dbWild =
      Resp.json [serializeMaterial matWild] ∧
    ¬ ∃ s t, matWild.title.data.map lowerChar =
        s ++ (pyStrip "a%b").data.map lowerChar ++ t := by
  refine ⟨by decide, ?_⟩
  rintro ⟨s, t, h⟩
  rw [(by decide : matWild.title.data.map lowerChar = ['a', 'x', 'b']),
      (by decide : (pyStrip "a%b").data.map lowerChar = ['a', '%', 'b'])] at h
  have hlen := congrArg List.length h
  simp only [List.length_append, List.length_cons, List.length_nil] at hlen
  have hs : s = [] := List.eq_nil_of_length_eq_zero (by omega)
  have ht : t = [] := List.eq_nil_of_length_eq_zero (by omega)
  subst hs
  subst ht
  exact absurd h (by decide)

/-- C8 amended: /api/search-materials returns the full, unpaginated match set
(its length equals the number of matching rows — no page cap) with each row
serialized as a record with exactly the fields id, title, category,
description, filename. The category filter is exact equality whenever the
category parameter differs from "all". The title filter is a
case-insensitive SQL LIKE with the search string interpolated into the
pattern; for search strings free of the LIKE wildcards % and _ — the
hypothesis below — it is exactly case-insensitive substring matching. -/
theorem C8_amended_search_api (search category sort : String) (db : Db)
    (hq : noWild (pyStrip search).data = true) :
    ∃ rs, search_materials search category sort db = Resp.json rs ∧
      rs.length = (db.materials.filter fun m =>
        (pyStrip search == "" || titleMatches (pyStrip search) m) &&
        (category == "all" || m.category == category)).length ∧
      (∀ r, r ∈ rs ↔ ∃ m, m ∈ db.materials ∧
        (pyStrip search = "" ∨ ∃ s t, m.title.data.map lowerChar =
            s ++ (pyStrip search).data.map lowerChar ++ t) ∧
        (category = "all" ∨ m.category = category) ∧
        r = serializeMaterial m) := by
  refine ⟨_, rfl, ?_, ?_⟩
  · rw [List.length_map, (sortSearch_perm _ _).length_eq, search_step_eq]
  · intro r
    rw [List.mem_map]
    constructor
    · rintro ⟨m, hm, rfl⟩
      have h := (mem_search_step _ _ _ m hq).mp (mem_sortSearch.mp hm)
      exact ⟨m, h.1, h.2.1, h.2.2, rfl⟩
    · rintro ⟨m, hm, hsub, hcat, rfl⟩
      exact ⟨m, mem_sortSearch.mpr
        ((mem_search_step _ _ _ m hq).mpr ⟨hm, hsub, hcat⟩), rfl⟩

/-- A material findable by case-insensitive substring search. -/
def matPhys : Material := ⟨1, "Intro to Physics", "notes", "p.pdf", "d"⟩

/-- A database holding just matPhys. -/
def dbPhys : Db := ⟨[], [matPhys], [], 1, 2, 1⟩

/-- C8 witness: the search "PHYS" (wildcard-free, uppercase) finds the
material titled "Intro to Physics". -/
theorem C8_witness :
    ∃ rs, search_materials "PHYS" "all" "newest" dbPhys = Resp.json rs ∧
      serializeMaterial matPhys ∈ rs := by
  obtain ⟨rs, h1, _, h3⟩ :=
    C8_amended_search_api "PHYS" "all" "newest" dbPhys (by decide)
  refine ⟨rs, h1, ?_⟩
  refine (h3 _).mpr ⟨matPhys, by decide, Or.inr ?_, Or.inl rfl, rfl⟩
  exact ⟨"intro to ".data, "ics".data, by decide⟩
end Ananas
